import Mathlib

/-!
# Verification of the VM-orchestration core (`app/vm_control.py`,
# `app/task_adapter.py`, `app/evaluator_runner.py`)

Shallow embedding of the retry / backoff engine, the guest command
executor, the VM lifecycle controller, the login gate, the action
pipeline runner and the evaluator bridge.  Side effects (subprocess
calls, sleeps, status updates) are modelled as an explicit event trace;
the flaky external control surface (`vmrun` / `vmware.exe`) is modelled
as a deterministic environment record giving the outcome of each kind
of command.  Durations are rationals (`ℚ`); Python exceptions are
`Except String` values carrying the exception message.
-/

namespace OSWorldApp

/-! ## String helpers (Python `in`, `str.lower`, `str.strip`, `ntpath.basename`) -/

/-- `needle` occurs as a contiguous sub-list of `hay`
(Python's substring operator `in`). -/
def listContains (needle : List Char) : List Char → Bool
  | [] => needle.isEmpty
  | c :: rest => needle.isPrefixOf (c :: rest) || listContains needle rest

/-- Python `pat in hay` on strings. -/
def strContains (hay pat : String) : Bool :=
  listContains pat.data hay.data

/-- Python `str.lower()` (ASCII case folding, which is all the source relies on). -/
def lowerStr (s : String) : String :=
  String.mk (s.data.map Char.toLower)

/-- Python `str.strip()`: drop leading and trailing whitespace. -/
def pyStrip (s : String) : String :=
  String.mk (((s.data.dropWhile Char.isWhitespace).reverse.dropWhile
    Char.isWhitespace).reverse)

/-- Python `path.replace('\\', '/')` (single-character replacement). -/
def backslashToSlash (s : String) : String :=
  String.mk (s.data.map (fun c => if c = '\\' then '/' else c))

/-- `ntpath.basename`: the longest suffix containing no `\` or `/` separator
(`os.path.basename` on the Windows host the program targets). -/
def winBasename (s : String) : String :=
  String.mk ((s.data.reverse.takeWhile (fun c => c ≠ '\\' && c ≠ '/')).reverse)

/-! ## Event traces

One constructor per observable side effect of the orchestration core. -/

/-- Observable events of the orchestration core:
retry status lines, sleeps, and each external command issued. -/
inductive Ev where
  /-- status line `Attempting {name} (attempt {k}/{max})` emitted by the retry engine -/
  | att (opName : String) (k : Nat)
  /-- `time.sleep(delay + jitter)` between retry attempts -/
  | backoff (delay jitter : ℚ)
  /-- an explicit `time.sleep(secs)` outside the retry engine -/
  | sleepSecs (secs : ℚ)
  /-- `vmrun ... listSnapshots` -/
  | cmdListSnapshots
  /-- `vmrun ... revertToSnapshot <name>` -/
  | cmdRevert (name : String)
  /-- `vmrun ... stop <mode>` -/
  | cmdStop (mode : String)
  /-- `vmware.exe -X` launch (`subprocess.Popen` in `start`) -/
  | cmdStart
  /-- `vmrun list` -/
  | cmdList
  /-- `vmrun ... listProcessesInGuest` -/
  | cmdListProcesses
  /-- `vmrun ... CopyFileFromHostToGuest` -/
  | cmdCopyToGuest
  /-- `vmrun ... CopyFileFromGuestToHost` -/
  | cmdCopyFromGuest
  /-- one `vmrun ... runProgramInGuest <program>` attempt -/
  | guestExec (program : String)
  /-- the pipeline runner dispatching action number `idx` to a handler -/
  | handlerCall (ty : String) (idx : Nat)
  /-- the pipeline runner's inter-action pacing `time.sleep(delay)` -/
  | pace (delay : ℚ)
deriving DecidableEq, Repr

/-! ## Retry/Backoff engine (`VMController._retry_with_backoff`) -/

/-- The parameters of `_retry_with_backoff`. -/
structure RetryPolicy where
  maxAttempts : Nat
  baseDelay : ℚ
  maxDelay : ℚ
  operationName : String

/-- `delay = min(base_delay * (2 ** (attempt - 1)), max_delay)` computed
before the sleep that precedes retry `attempt + 1`. -/
def backoffDelay (p : RetryPolicy) (attempt : Nat) : ℚ :=
  min (p.baseDelay * 2 ^ (attempt - 1)) p.maxDelay

/-- Message of the `VMOperationError` raised on exhaustion:
`f"{operation_name} failed after {max_attempts} attempts: {last_exception}"`. -/
def retryFailMsg (p : RetryPolicy) (last : Option String) : String :=
  p.operationName ++ " failed after " ++ toString p.maxAttempts ++
    " attempts: " ++ last.getD "None"

/-- The loop body of `_retry_with_backoff`.  `op k` is the traced outcome of
running the wrapped operation on attempt `k`; `jit k` is the value
`random.uniform(0, 0.1 * delay)` returns before retry `k + 1`; `a` is the
current attempt number and `fuel` the number of attempts still allowed
(`fuel = max_attempts - a + 1` at every call). -/
def retryFrom (op : Nat → List Ev × Except String α) (jit : Nat → ℚ)
    (p : RetryPolicy) : Nat → Nat → Option String → List Ev × Except String α
  | _, 0, last => ([], .error (retryFailMsg p last))
  | a, fuel + 1, _last =>
    match op a with
    | (tr, .ok x) => (Ev.att p.operationName a :: tr, .ok x)
    | (tr, .error e) =>
      if fuel = 0 then
        (Ev.att p.operationName a :: tr, .error (retryFailMsg p (some e)))
      else
        let rest := retryFrom op jit p (a + 1) fuel (some e)
        (Ev.att p.operationName a :: tr ++
          Ev.backoff (backoffDelay p a) (jit a) :: rest.1, rest.2)

/-- `VMController._retry_with_backoff(operation, max_attempts, base_delay,
max_delay, operation_name)`: attempts `1 .. maxAttempts`, sleeping
`backoffDelay + jitter` between attempts, raising `retryFailMsg` after
the last failure (with no sleep after it). -/
def retry_with_backoff (op : Nat → List Ev × Except String α) (jit : Nat → ℚ)
    (p : RetryPolicy) : List Ev × Except String α :=
  retryFrom op jit p 1 p.maxAttempts none

/-! ## Guest command executor (`VMController.run_in_guest`) -/

/-- Outcome of one `subprocess.run` of `vmrun ... runProgramInGuest`:
either the call raised (timeout / spawn failure, carrying the message of
the `VMTimeoutError` / `VMOperationError` built around it), or it
completed with an exit code and decoded stdout/stderr. -/
inductive GuestOutcome where
  | raise (msg : String)
  | done (rc : Int) (stdout stderr : String)
deriving DecidableEq, Repr

/-- `f"{s}"` rendering of a possibly-empty capture:
Python `stdout if stdout else 'None'`. -/
def showCapture (s : String) : String :=
  if s = "" then "None" else s

/-- The exit-code classification at the end of `_run_operation`
(`run_in_guest` lines 226-248): exit code `0` returns `0`; a non-zero
exit code whose stdout contains `"Error:"` or a localized failure
keyword (`错误` / `失败`) raises `VMOperationError`; any other non-zero
exit code is returned as a value. -/
def classifyGuestResult (rc : Int) (stdout stderr : String) : Except String Int :=
  if rc = 0 then .ok 0
  else if strContains stdout "Error:" || strContains stdout "错误" ||
      strContains stdout "失败" then
    .error ("Guest program failed with error: stdout=" ++ showCapture stdout ++
      ", stderr=" ++ showCapture stderr)
  else .ok rc

/-- The whole of `_run_operation` for one attempt: a raised subprocess
error propagates, a completed run is classified by exit code. -/
def runGuestOperation (o : GuestOutcome) : Except String Int :=
  match o with
  | .raise msg => .error msg
  | .done rc stdout stderr => classifyGuestResult rc stdout stderr

/-- The control surface as seen through `runProgramInGuest`: the outcome
of executing a given guest program (deterministic per program). -/
def GuestEnv := String → GuestOutcome

/-- `VMController.run_in_guest(program_path, ..., max_attempts)`:
wraps `_run_operation` in `_retry_with_backoff` (operation name
`f"run {program_path}"`, default delays), and on `VMOperationError`
exhaustion returns `-1` instead of re-raising
(`except VMOperationError: return -1`, lines 250-259).  The result is
`Except`-typed to record that no exception escapes: every branch is `.ok`. -/
def run_in_guest (genv : GuestEnv) (jit : Nat → ℚ) (maxAttempts : Nat)
    (program : String) : List Ev × Except String Int :=
  let r := retry_with_backoff
    (fun _ => ([Ev.guestExec program], runGuestOperation (genv program))) jit
    { maxAttempts := maxAttempts, baseDelay := 1, maxDelay := 30,
      operationName := "run " ++ program }
  match r with
  | (tr, .ok rc) => (tr, .ok rc)
  | (tr, .error _) => (tr, .ok (-1))

/-! ## VM lifecycle controller (`vmrun`-level operations) -/

/-- `f"vmrun {' '.join(args[:2])}"`, the operation name `_run_vmrun`
passes to the retry engine. -/
def vmrunOpName (args : List String) : String :=
  "vmrun " ++ String.intercalate " " (args.take 2)

/-- One control-surface environment: the outcome of each kind of `vmrun`
command issued by the lifecycle controller (`.ok stdout` when the
command exits 0, `.error msg` carrying the message of the exception
`_vmrun_operation` raises: `f"vmrun failed: {stderr}"` on a non-zero
exit, or a timeout message).  `vmxPath` is the handle's
`os.path.normpath`-normalized `.vmx` path. -/
structure VMEnv where
  vmxPath : String
  /-- outcome of `vmrun -T ws listSnapshots <vmx>` -/
  snapList : Except String String
  /-- outcome of `vmrun -T ws revertToSnapshot <vmx> <name>` -/
  revertRes : Except String String
  /-- outcome of `vmrun list` -/
  listRes : Except String String
  /-- outcome of `vmrun -T ws -gu .. -gp .. listProcessesInGuest <vmx>` -/
  listProcRes : Except String String

/-- `VMController._run_vmrun(args)`: runs the command under
`_retry_with_backoff` with 3 attempts and default delays.  `res` is the
environment's outcome for this command and `ev` the event recording one
issue of it. -/
def run_vmrun (res : Except String String) (jit : Nat → ℚ) (opName : String)
    (ev : Ev) : List Ev × Except String String :=
  retry_with_backoff (fun _ => ([ev], res)) jit
    { maxAttempts := 3, baseDelay := 1, maxDelay := 30, operationName := opName }

/-- The path matching in `VMController.is_running` (lines 410-415):
`vm_list = stdout.strip()`; true iff the normalized path, its
`/`-separated form, its basename, or its lowercase form (against the
lowercased listing) occurs in the listing. -/
def vmListMatch (normVmx stdoutRaw : String) : Bool :=
  let vmList := pyStrip stdoutRaw
  strContains vmList normVmx ||
    strContains vmList (backslashToSlash normVmx) ||
    strContains vmList (winBasename normVmx) ||
    strContains (lowerStr vmList) (lowerStr normVmx)

/-- `VMController.is_running`: lists the active VMs via `_run_vmrun ["list"]`
and matches the handle's path against the listing; any exception
(including retry exhaustion of the listing query) yields `false`. -/
def is_running (env : VMEnv) (jit : Nat → ℚ) : List Ev × Bool :=
  match run_vmrun env.listRes jit (vmrunOpName ["list"]) Ev.cmdList with
  | (tr, .ok stdout) => (tr, vmListMatch env.vmxPath stdout)
  | (tr, .error _) => (tr, false)

/-- `VMController.start(fullscreen=True)`: under a 3-attempt retry named
`"VM start"`, launch `vmware.exe` (`subprocess.Popen`), `time.sleep(20)`,
then poll `is_running`: raise `"VM failed to start"` when the VM is not
listed. -/
def startVM (env : VMEnv) (jit : Nat → ℚ) : List Ev × Except String Bool :=
  retry_with_backoff
    (fun _ =>
      let r := is_running env jit
      (Ev.cmdStart :: Ev.sleepSecs 20 :: r.1,
        if r.2 then .ok true else .error "VM failed to start"))
    jit { maxAttempts := 3, baseDelay := 1, maxDelay := 30, operationName := "VM start" }

/-- `VMController.can_revert_snapshot(name)`: queries
`listSnapshots` through `_run_vmrun` (which itself retries), then tests
`name in stdout`; any exception is caught and yields `false`
("cannot check snapshots"). -/
def can_revert_snapshot (env : VMEnv) (jit : Nat → ℚ) (name : String) :
    List Ev × Bool :=
  match run_vmrun env.snapList jit
      (vmrunOpName ["-T", "ws", "listSnapshots", env.vmxPath])
      Ev.cmdListSnapshots with
  | (tr, .ok stdout) => (tr, strContains stdout name)
  | (tr, .error _) => (tr, false)

/-- `VMController.revert_snapshot(name)`: under a 2-attempt retry named
`"snapshot revert"`, the operation (1) raises
`f"Snapshot '{name}' not found in VM"` when `can_revert_snapshot` is
false, (2) issues `revertToSnapshot` through `_run_vmrun`, (3) calls
`start(fullscreen=True)`.  Failures of any step propagate to the outer
retry, which raises on exhaustion. -/
def revert_snapshot (env : VMEnv) (jit : Nat → ℚ) (name : String) :
    List Ev × Except String Bool :=
  retry_with_backoff
    (fun _ =>
      let c := can_revert_snapshot env jit name
      if !c.2 then
        (c.1, .error ("Snapshot '" ++ name ++ "' not found in VM"))
      else
        match run_vmrun env.revertRes jit
            (vmrunOpName ["-T", "ws", "revertToSnapshot", env.vmxPath, name])
            (Ev.cmdRevert name) with
        | (trR, .error e) => (c.1 ++ trR, .error e)
        | (trR, .ok _) =>
          match startVM env jit with
          | (trS, .error e) => (c.1 ++ trR ++ trS, .error e)
          | (trS, .ok _) => (c.1 ++ trR ++ trS, .ok true))
    jit { maxAttempts := 2, baseDelay := 1, maxDelay := 30, operationName := "snapshot revert" }

/-! ## Login/readiness gate (`test_guest_access`, `_wait_for_user_login`) -/

/-- `VMController.test_guest_access`: one guest-accessibility probe; it
issues `listProcessesInGuest` through `_run_vmrun` (which applies the
retry engine with 3 attempts) and converts any exception to `false`. -/
def test_guest_access (env : VMEnv) (jit : Nat → ℚ) : List Ev × Bool :=
  match run_vmrun env.listProcRes jit (vmrunOpName ["-T", "ws", "-gu"])
      Ev.cmdListProcesses with
  | (tr, .ok _) => (tr, true)
  | (tr, .error _) => (tr, false)

/-- `VMController._wait_for_user_login(timeout)`: `for elapsed in
range(timeout)`, probe `test_guest_access`; return `true` on the first
successful probe, `false` after the budget is exhausted (the progress
bar emits no modelled events). -/
def wait_for_user_login (env : VMEnv) (jit : Nat → ℚ) :
    Nat → List Ev × Bool
  | 0 => ([], false)
  | t + 1 =>
    let p := test_guest_access env jit
    if p.2 then (p.1, true)
    else
      let rest := wait_for_user_login env jit t
      (p.1 ++ rest.1, rest.2)

/-! ## Action pipeline runner (`task_adapter.py`) -/

/-- A task-configuration parameter value (`Action.parameters` holds
JSON-derived values; the handlers the claims exercise read strings,
string lists, booleans and numbers). -/
inductive PValue where
  | str (s : String)
  | strList (l : List String)
  | bool (b : Bool)
  | num (q : ℚ)
deriving DecidableEq, Repr

/-- One entry of a task's `config` list: `{type, parameters}`. -/
structure Action where
  type : String
  parameters : List (String × PValue)
deriving DecidableEq, Repr

/-- `action.parameters.get(key, default)`. -/
def getParam (ps : List (String × PValue)) (key : String) (dflt : PValue) : PValue :=
  match ps.lookup key with
  | some v => v
  | none => dflt

/-- `action.parameters.get(key, "")` read as a string. -/
def getStrParam (ps : List (String × PValue)) (key dflt : String) : String :=
  match ps.lookup key with
  | some (.str s) => s
  | _ => dflt

/-- `action.parameters.get(key, [])` read as a string list. -/
def getStrListParam (ps : List (String × PValue)) (key : String) : List String :=
  match ps.lookup key with
  | some (.strList l) => l
  | _ => []

/-- `action.parameters.get(key, False)` read as a boolean. -/
def getBoolParam (ps : List (String × PValue)) (key : String) (dflt : Bool) : Bool :=
  match ps.lookup key with
  | some (.bool b) => b
  | _ => dflt

/-- `action.parameters.get(key, d)` read as a number. -/
def getNumParam (ps : List (String × PValue)) (key : String) (dflt : ℚ) : ℚ :=
  match ps.lookup key with
  | some (.num q) => q
  | _ => dflt

/-- An action handler: given the guest environment and the jitter
oracle, it produces its event trace and either returns a boolean
normally (`.ok`) or raises (`.error`). -/
def Handler := GuestEnv → (Nat → ℚ) → Action → List Ev × Except String Bool

/-- `"C:\\Windows\\System32\\WindowsPowerShell\\v1.0\\powershell.exe"`. -/
def powershellPath : String :=
  "C:\\Windows\\System32\\WindowsPowerShell\\v1.0\\powershell.exe"

/-- The `program_mappings` table of `handle_launch`. -/
def programMappings : List (String × String) :=
  [("google-chrome", "C:\\Program Files\\Google\\Chrome\\Application\\chrome.exe"),
   ("chrome", "C:\\Program Files\\Google\\Chrome\\Application\\chrome.exe"),
   ("notepad", "C:\\Windows\\System32\\notepad.exe"),
   ("powershell", powershellPath),
   ("code", "C:\\Users\\user\\AppData\\Local\\Programs\\Microsoft VS Code\\Code.exe"),
   ("vlc", "C:\\Program Files\\VideoLAN\\VLC\\vlc.exe")]

/-- Python `str.split()` (whitespace split, empty pieces dropped). -/
def pySplit (s : String) : List String :=
  (s.split Char.isWhitespace).filter (fun p => p ≠ "")

/-- `handle_launch(action, vm, task)` (task_adapter lines 154-230):
resolves the `program`/`command`/`args`/`shell` parameter formats;
returns `False` (without raising) when no program can be determined;
skips `socat` launches; maps well-known aliases to absolute paths; runs
the program (or PowerShell, for shell commands) via `vm.run_in_guest`
and returns `True` for both zero and non-zero exit codes, with an extra
3-second settle sleep after Chrome launches. -/
def handle_launch : Handler := fun genv jit a =>
  let program0 := getStrParam a.parameters "program" ""
  let command := getParam a.parameters "command" (.strList [])
  let args0 := getStrListParam a.parameters "args"
  let shell := getBoolParam a.parameters "shell" false
  let pa : String × List String :=
    match command with
    | .strList l =>
      if !l.isEmpty then (l.headD "", l.tail) else (program0, args0)
    | .str s =>
      if s ≠ "" then
        if shell then (s, [])
        else ((pySplit s).headD "", (pySplit s).tail)
      else (program0, args0)
    | _ => (program0, args0)
  let program1 := pa.1
  if program1 = "" then ([], .ok false)
  else if strContains (lowerStr program1) "socat" then ([], .ok true)
  else
    let program := (programMappings.lookup program1).getD program1
    let target := if shell then powershellPath else program
    match run_in_guest genv jit 3 target with
    | (tr, .ok rc) =>
      if rc = 0 then
        if strContains (lowerStr program) "chrome" then
          (tr ++ [Ev.sleepSecs 3], .ok true)
        else (tr, .ok true)
      else (tr, .ok true)
    | (tr, .error _) => (tr, .ok false)

/-- `handle_sleep(action, vm, task)`: `time.sleep(parameters.get("seconds", 1))`;
returns `None` (modelled as `.ok true`; `run_config` never reads it). -/
def handle_sleep : Handler := fun _ _ a =>
  ([Ev.sleepSecs (getNumParam a.parameters "seconds" 1)], .ok true)

/-- The `action_delays` table inside `TaskRunner.run_config`
(default 2 seconds). -/
def actionDelay (ty : String) : ℚ :=
  if ty = "launch" then 3
  else if ty = "chrome_open_tabs" then 2
  else if ty = "chrome_close_tabs" then 1
  else if ty = "download" then 1
  else if ty = "execute" then 2
  else if ty = "activate_window" then 1
  else if ty = "sleep" then 0
  else 2

/-- The loop body of `TaskRunner.run_config`: for each action, dispatch
to `self.action_handlers.get(action.type)` (falling back to the generic
handler `gh` when no handler is registered), re-raise any handler
exception, and otherwise — ignoring the handler's return value — pace
with `action_delays.get(type, 2.0)` seconds when the action is not the
last one and the delay is positive, then continue. -/
def runConfigFrom (reg : String → Option Handler) (gh : Handler)
    (genv : GuestEnv) (jit : Nat → ℚ) :
    Nat → List Action → List Ev × Except String Unit
  | _, [] => ([], .ok ())
  | i, a :: rest =>
    let h := (reg a.type).getD gh
    match h genv jit a with
    | (tr, .error e) => (Ev.handlerCall a.type i :: tr, .error e)
    | (tr, .ok _) =>
      let pacing : List Ev :=
        if rest.isEmpty then []
        else if 0 < actionDelay a.type then [Ev.pace (actionDelay a.type)] else []
      let restRun := runConfigFrom reg gh genv jit (i + 1) rest
      (Ev.handlerCall a.type i :: tr ++ pacing ++ restRun.1, restRun.2)

/-- `TaskRunner.run_config(task, vm)` over the task's action list. -/
def run_config (reg : String → Option Handler) (gh : Handler)
    (genv : GuestEnv) (jit : Nat → ℚ) (actions : List Action) :
    List Ev × Except String Unit :=
  runConfigFrom reg gh genv jit 0 actions

/-- The handler registry restricted to the handlers the verified claims
exercise (`ACTION_HANDLERS` also registers further guest-side handlers
that no claim touches). -/
def stdRegistry : String → Option Handler := fun ty =>
  if ty = "launch" then some handle_launch
  else if ty = "sleep" then some handle_sleep
  else none

/-! ## Evaluator bridge (`evaluator_runner.py`) -/

/-- The shape of the dictionary `EvaluatorRunner.run` returns: the
parsed result file, or the structured failure
`{"passed": False, "details": {"error": ..., "evaluator_type": "runner"}}`. -/
structure EvalDict where
  passed : Bool
  detailsError : Option String
  evaluatorType : Option String
deriving DecidableEq, Repr

/-- The structured failure dictionary built by `EvaluatorRunner.run`. -/
def failureDict (msg : String) : EvalDict :=
  { passed := false, detailsError := some msg, evaluatorType := some "runner" }

/-- Environment of one evaluation run: outcome of each guest call plus
the host-side state after the transfer. -/
structure EvalEnv where
  /-- outcome of `CopyFileFromHostToGuest` for the task descriptor -/
  copyTaskRes : Except String String
  /-- outcome of the `runProgramInGuest` invocation of the evaluator -/
  evalOutcome : GuestOutcome
  /-- outcome of `CopyFileFromGuestToHost` for the result file -/
  copyResultRes : Except String String
  /-- `host_result_file.exists()` after the transfer -/
  hostResultExists : Bool
  /-- the parsed JSON when the result file exists -/
  hostResult : EvalDict

/-- `VMController.copy_to_guest` / `copy_from_guest`: a 3-attempt retry
around `_run_vmrun` (itself a 3-attempt retry) of the copy command. -/
def copy_file_retry (res : Except String String) (jit : Nat → ℚ)
    (opName : String) (ev : Ev) : List Ev × Except String Bool :=
  retry_with_backoff
    (fun _ =>
      let r := run_vmrun res jit (vmrunOpName ["-T", "ws"]) ev
      (r.1, r.2.map (fun _ => true)))
    jit { maxAttempts := 3, baseDelay := 1, maxDelay := 30, operationName := opName }

/-- `EvaluatorRunner.run(task, vm, ...)` (lines 57-188): copy the task
descriptor into the guest, invoke the guest evaluator through
`run_in_guest` with `max_attempts=2` (a non-zero exit code is only
logged), copy the result file back, and parse it when it exists on the
host; when it does not, return the structured failure
`"Result file not found after copying from guest"`.  The surrounding
`except Exception` converts every raised error into a structured
failure carrying its message, so the function always returns a
well-formed dictionary (`.ok` in every branch). -/
def evaluator_run (env : EvalEnv) (jit : Nat → ℚ) :
    List Ev × Except String EvalDict :=
  match copy_file_retry env.copyTaskRes jit "copy to guest" Ev.cmdCopyToGuest with
  | (tr1, .error e) => (tr1, .ok (failureDict e))
  | (tr1, .ok _) =>
    let gr := run_in_guest (fun _ => env.evalOutcome) jit 2 powershellPath
    match copy_file_retry env.copyResultRes jit "copy from guest" Ev.cmdCopyFromGuest with
    | (tr3, .error e) => (tr1 ++ gr.1 ++ tr3, .ok (failureDict e))
    | (tr3, .ok _) =>
      if env.hostResultExists then (tr1 ++ gr.1 ++ tr3, .ok env.hostResult)
      else (tr1 ++ gr.1 ++ tr3,
        .ok (failureDict "Result file not found after copying from guest"))

/-! ## Trace predicates -/

/-- The event is a retry-engine `Attempting ...` status line. -/
def isAttEv : Ev → Bool
  | .att _ _ => true
  | _ => false

/-- The event is a retry-engine backoff sleep. -/
def isBackoffEv : Ev → Bool
  | .backoff _ _ => true
  | _ => false

/-- The event is a `revertToSnapshot` command. -/
def isRevertEv : Ev → Bool
  | .cmdRevert _ => true
  | _ => false

/-- The event is a `stop` command. -/
def isStopEv : Ev → Bool
  | .cmdStop _ => true
  | _ => false

/-- The event is a `runProgramInGuest` attempt. -/
def isGuestExecEv : Ev → Bool
  | .guestExec _ => true
  | _ => false

/-- The event is an inter-action pacing sleep. -/
def isPaceEv : Ev → Bool
  | .pace _ => true
  | _ => false

/-- The event is a `listProcessesInGuest` probe. -/
def isListProcEv : Ev → Bool
  | .cmdListProcesses => true
  | _ => false

/-- The event is a handler dispatch. -/
def isHandlerCallEv : Ev → Bool
  | .handlerCall _ _ => true
  | _ => false

/-! ## Retry-engine unfolding lemmas -/

theorem retryFrom_ok {α} {op : Nat → List Ev × Except String α} {a : Nat}
    {tr : List Ev} {x : α} (h : op a = (tr, Except.ok x)) (jit : Nat → ℚ)
    (p : RetryPolicy) (f : Nat) (last : Option String) :
    retryFrom op jit p a (f + 1) last = (Ev.att p.operationName a :: tr, Except.ok x) := by
  simp [retryFrom, h]

theorem retryFrom_err_last {α} {op : Nat → List Ev × Except String α} {a : Nat}
    {tr : List Ev} {e : String} (h : op a = (tr, Except.error e)) (jit : Nat → ℚ)
    (p : RetryPolicy) (last : Option String) :
    retryFrom op jit p a 1 last =
      (Ev.att p.operationName a :: tr, Except.error (retryFailMsg p (some e))) := by
  simp [retryFrom, h]

theorem retryFrom_err_step {α} {op : Nat → List Ev × Except String α} {a : Nat}
    {tr : List Ev} {e : String} (h : op a = (tr, Except.error e)) (jit : Nat → ℚ)
    (p : RetryPolicy) (f : Nat) (last : Option String) :
    retryFrom op jit p a (f + 2) last =
      (Ev.att p.operationName a :: tr ++
        Ev.backoff (backoffDelay p a) (jit a) ::
          (retryFrom op jit p (a + 1) (f + 1) (some e)).1,
        (retryFrom op jit p (a + 1) (f + 1) (some e)).2) := by
  simp [retryFrom, h]

/-! ## The trace of a permanently failing operation -/

/-- The event trace `_retry_with_backoff` produces for a permanently
failing operation (with empty per-attempt traces), starting at attempt
`a` with `fuel` attempts left. -/
def failTrace (p : RetryPolicy) (jit : Nat → ℚ) : Nat → Nat → List Ev
  | _, 0 => []
  | a, 1 => [Ev.att p.operationName a]
  | a, f + 2 =>
    Ev.att p.operationName a :: Ev.backoff (backoffDelay p a) (jit a) ::
      failTrace p jit (a + 1) (f + 1)

/-- The backoff sleeps of `failTrace`, in order: one sleep per attempt
`a, a+1, ...` for `f` sleeps. -/
def backoffList (p : RetryPolicy) (jit : Nat → ℚ) : Nat → Nat → List Ev
  | _, 0 => []
  | a, f + 1 =>
    Ev.backoff (backoffDelay p a) (jit a) :: backoffList p jit (a + 1) f

theorem retryFrom_allFail {α} {op : Nat → List Ev × Except String α}
    {er : Nat → String} (h : ∀ k, op k = ([], Except.error (er k)))
    (jit : Nat → ℚ) (p : RetryPolicy) :
    ∀ f a last, retryFrom op jit p a (f + 1) last =
      (failTrace p jit a (f + 1), Except.error (retryFailMsg p (some (er (a + f))))) := by
  intro f
  induction f with
  | zero =>
    intro a last
    rw [retryFrom_err_last (h a)]
    simp [failTrace]
  | succ f ih =>
    intro a last
    rw [retryFrom_err_step (h a), ih (a + 1) (some (er a))]
    have hn : a + 1 + f = a + (f + 1) := by omega
    rw [hn]
    simp [failTrace]

theorem failTrace_countP_att (p : RetryPolicy) (jit : Nat → ℚ) :
    ∀ f a, (failTrace p jit a (f + 1)).countP isAttEv = f + 1 := by
  intro f
  induction f with
  | zero => intro a; simp [failTrace, isAttEv]
  | succ f ih =>
    intro a
    simp [failTrace, List.countP_cons, isAttEv, ih (a + 1)]

theorem failTrace_countP_backoff (p : RetryPolicy) (jit : Nat → ℚ) :
    ∀ f a, (failTrace p jit a (f + 1)).countP isBackoffEv = f := by
  intro f
  induction f with
  | zero => intro a; simp [failTrace, isBackoffEv]
  | succ f ih =>
    intro a
    simp [failTrace, List.countP_cons, isBackoffEv, ih (a + 1)]

theorem failTrace_filter_backoff (p : RetryPolicy) (jit : Nat → ℚ) :
    ∀ f a, (failTrace p jit a (f + 1)).filter isBackoffEv = backoffList p jit a f := by
  intro f
  induction f with
  | zero => intro a; simp [failTrace, backoffList, isBackoffEv]
  | succ f ih =>
    intro a
    simp [failTrace, backoffList, isBackoffEv, ih (a + 1)]

theorem failTrace_getLast (p : RetryPolicy) (jit : Nat → ℚ) :
    ∀ f a, (failTrace p jit a (f + 1)).getLast? = some (Ev.att p.operationName (a + f)) := by
  intro f
  induction f with
  | zero => intro a; simp [failTrace]
  | succ f ih =>
    intro a
    show (Ev.att p.operationName a :: Ev.backoff _ _ :: failTrace p jit (a + 1) (f + 1)).getLast?
      = some (Ev.att p.operationName (a + (f + 1)))
    rw [List.getLast?_cons_cons]
    have hne : failTrace p jit (a + 1) (f + 1) ≠ [] := by
      cases f <;> simp [failTrace]
    rcases List.exists_cons_of_ne_nil hne with ⟨b, l, hbl⟩
    rw [hbl, List.getLast?_cons_cons, ← hbl, ih (a + 1)]
    congr 2
    omega

theorem backoffList_get (p : RetryPolicy) (jit : Nat → ℚ) :
    ∀ f a i, i < f → (backoffList p jit a f).get? i =
      some (Ev.backoff (backoffDelay p (a + i)) (jit (a + i))) := by
  intro f
  induction f with
  | zero => intro a i hi; omega
  | succ f ih =>
    intro a i hi
    cases i with
    | zero => simp [backoffList]
    | succ i =>
      show (backoffList p jit (a + 1) f).get? i =
        some (Ev.backoff (backoffDelay p (a + (i + 1))) (jit (a + (i + 1))))
      have hn : a + 1 + i = a + (i + 1) := by omega
      have h2 := ih (a + 1) i (by omega)
      rw [hn] at h2
      exact h2

theorem backoffDelay_mono {p : RetryPolicy} (hb : 0 ≤ p.baseDelay) :
    ∀ i j, i ≤ j → backoffDelay p i ≤ backoffDelay p j := by
  intro i j hij
  unfold backoffDelay
  have h2 : (2 : ℚ) ^ (i - 1) ≤ 2 ^ (j - 1) := by
    apply pow_le_pow_right₀ (by norm_num)
    omega
  exact min_le_min (mul_le_mul_of_nonneg_left h2 hb) le_rfl

/-- `0 ≤ backoffDelay p k` when the policy's delays are non-negative. -/
theorem backoffDelay_nonneg {p : RetryPolicy} (hb : 0 ≤ p.baseDelay)
    (hm : 0 ≤ p.maxDelay) (k : Nat) : 0 ≤ backoffDelay p k :=
  le_min (mul_nonneg hb (pow_nonneg (by norm_num) _)) hm

/-! ## C1 — Retry engine exhaustion behaviour -/

/-- **C1.** For every operation passed to the retry engine with
`maxAttempts = N`, `baseDelay`, `maxDelay`: if the operation fails on
every attempt, it is attempted exactly `N` times and then an aggregate
error embedding the operation name and the last underlying failure is
raised; before retry `k + 1` the computed delay equals
`min(baseDelay * 2^(k-1), maxDelay)` plus a jitter drawn uniformly from
`[0, 0.1 * delay]` (the draw is modelled by the oracle `jit`, assumed to
respect the bounds `random.uniform(0, 0.1 * delay)` guarantees);
the computed delays (jitter excluded) are monotonically non-decreasing,
and no sleep occurs after the final failed attempt (the last trace
event is the final attempt, not a backoff sleep). -/
theorem retry_exhaustion_spec {α} (op : Nat → Except String α) (er : Nat → String)
    (p : RetryPolicy) (jit : Nat → ℚ)
    (hfail : ∀ k, op k = Except.error (er k))
    (hN : 1 ≤ p.maxAttempts) (hb : 0 ≤ p.baseDelay)
    (hjit : ∀ k, 0 ≤ jit k ∧ jit k ≤ (1 / 10) * backoffDelay p k) :
    (retry_with_backoff (fun k => ([], op k)) jit p).1.countP isAttEv = p.maxAttempts ∧
    (retry_with_backoff (fun k => ([], op k)) jit p).2 =
      Except.error (p.operationName ++ " failed after " ++ toString p.maxAttempts ++
        " attempts: " ++ er p.maxAttempts) ∧
    (retry_with_backoff (fun k => ([], op k)) jit p).1.countP isBackoffEv =
      p.maxAttempts - 1 ∧
    (∀ k, 1 ≤ k → k < p.maxAttempts →
      ((retry_with_backoff (fun k => ([], op k)) jit p).1.filter isBackoffEv).get? (k - 1) =
        some (Ev.backoff (backoffDelay p k) (jit k)) ∧
      0 ≤ jit k ∧ jit k ≤ (1 / 10) * backoffDelay p k) ∧
    (∀ i j, i ≤ j → backoffDelay p i ≤ backoffDelay p j) ∧
    (retry_with_backoff (fun k => ([], op k)) jit p).1.getLast? =
      some (Ev.att p.operationName p.maxAttempts) := by
  obtain ⟨f, hf⟩ : ∃ f, p.maxAttempts = f + 1 := ⟨p.maxAttempts - 1, by omega⟩
  have hop : ∀ k, (fun k => (([] : List Ev), op k)) k = ([], Except.error (er k)) := by
    intro k
    simp [hfail k]
  have hmain : retry_with_backoff (fun k => ([], op k)) jit p =
      (failTrace p jit 1 (f + 1),
        Except.error (retryFailMsg p (some (er (1 + f))))) := by
    rw [retry_with_backoff, hf]
    exact retryFrom_allFail hop jit p f 1 none
  rw [hmain]
  have h1f : 1 + f = p.maxAttempts := by omega
  refine ⟨?_, ?_, ?_, ?_, ?_, ?_⟩
  · rw [failTrace_countP_att, hf]
  · rw [retryFailMsg, h1f]
    rfl
  · rw [failTrace_countP_backoff, hf]
    omega
  · intro k hk1 hk2
    refine ⟨?_, hjit k⟩
    rw [failTrace_filter_backoff]
    have := backoffList_get p jit f 1 (k - 1) (by omega)
    have hk : 1 + (k - 1) = k := by omega
    rw [hk] at this
    exact this
  · exact backoffDelay_mono hb
  · rw [failTrace_getLast, h1f]

/-- Witness for C1 at `maxAttempts = 3`, `baseDelay = 1`, `maxDelay = 30`,
an operation failing every attempt with message `"boom"`, zero jitter. -/
theorem retry_exhaustion_spec_witness :
    (1 : Nat) ≤ 3 ∧
    ((retry_with_backoff (fun _ => ([], (Except.error "boom" : Except String Unit)))
        (fun _ => 0) ⟨3, 1, 30, "operation"⟩).1.countP isAttEv = 3 ∧
      (retry_with_backoff (fun _ => ([], (Except.error "boom" : Except String Unit)))
        (fun _ => 0) ⟨3, 1, 30, "operation"⟩).2 =
        Except.error ("operation" ++ " failed after " ++ toString (3 : Nat) ++
          " attempts: " ++ "boom")) := by
  have h := retry_exhaustion_spec (α := Unit) (fun _ => Except.error "boom")
    (fun _ => "boom") ⟨3, 1, 30, "operation"⟩ (fun _ => 0)
    (fun _ => rfl) (by norm_num) (by norm_num)
    (fun k => ⟨le_rfl, mul_nonneg (by norm_num)
      (backoffDelay_nonneg (by norm_num) (by norm_num) k)⟩)
  exact ⟨by norm_num, h.1, h.2.1⟩

/-! ## C2 — `run_in_guest` on retry exhaustion -/

/-- If every attempt of the wrapped operation fails, the retry engine's
result is an error (for any fuel, start attempt and last-error state). -/
theorem retryFrom_err_of_allFail {α} {op : Nat → List Ev × Except String α}
    (h : ∀ k, ∃ e, (op k).2 = Except.error e) (jit : Nat → ℚ) (p : RetryPolicy) :
    ∀ f a last, ∃ e2, (retryFrom op jit p a f last).2 = Except.error e2 := by
  intro f
  induction f with
  | zero => intro a last; exact ⟨retryFailMsg p last, rfl⟩
  | succ f ih =>
    intro a last
    obtain ⟨e, he⟩ := h a
    rcases hop : op a with ⟨tr, r⟩
    rw [hop] at he
    simp at he
    rw [he] at hop
    cases f with
    | zero =>
      refine ⟨retryFailMsg p (some e), ?_⟩
      rw [retryFrom_err_last hop]
    | succ f2 =>
      obtain ⟨e2, he2⟩ := ih (a + 1) (some e)
      refine ⟨e2, ?_⟩
      rw [retryFrom_err_step hop]
      exact he2

/-- **C2 (counterexample).** A guest command whose underlying operation
fails on all of its `max_attempts = 3` attempts: `run_in_guest` performs
the 3 attempts and then *returns* `-1` as a value (`Except.ok`) — it
does not raise on exhaustion, contradicting the claim. -/
theorem run_in_guest_swallow_cex :
    (run_in_guest
      (fun _ => GuestOutcome.raise "Guest program execution timed out after 60 seconds")
      (fun _ => 0) 3 "C:\\app.exe").1.countP isGuestExecEv = 3 ∧
    (run_in_guest
      (fun _ => GuestOutcome.raise "Guest program execution timed out after 60 seconds")
      (fun _ => 0) 3 "C:\\app.exe").2 = Except.ok (-1) := by
  exact ⟨by decide, rfl⟩

/-- **C2 (amended).** For every guest command invocation through
`run_in_guest` whose underlying operation fails on all of its
`max_attempts` attempts, the executor catches the exhaustion error
(`except VMOperationError`) and returns the error code `-1` to the
caller as a value; no exception escapes. -/
theorem run_in_guest_returns_neg_one (genv : GuestEnv) (jit : Nat → ℚ)
    (n : Nat) (program : String)
    (h : ∃ e, runGuestOperation (genv program) = Except.error e) :
    (run_in_guest genv jit n program).2 = Except.ok (-1) := by
  have hall : ∀ k, ∃ e,
      ((fun _ : Nat => ([Ev.guestExec program], runGuestOperation (genv program))) k).2 =
        Except.error e := fun _ => h
  obtain ⟨e2, he2⟩ := retryFrom_err_of_allFail hall jit
    { maxAttempts := n, baseDelay := 1, maxDelay := 30, operationName := "run " ++ program }
    n 1 none
  unfold run_in_guest retry_with_backoff
  rcases hr : retryFrom (fun _ => ([Ev.guestExec program], runGuestOperation (genv program)))
      jit { maxAttempts := n, baseDelay := 1, maxDelay := 30, operationName := "run " ++ program }
      1 n none with ⟨tr, res⟩
  rw [hr] at he2
  simp at he2
  rw [he2]

/-- Witness for C2 at a permanently timing-out guest command. -/
theorem run_in_guest_returns_neg_one_witness :
    (∃ e, runGuestOperation ((fun _ => GuestOutcome.raise "boom") "C:\\app.exe") =
      Except.error e) ∧
    (run_in_guest (fun _ => GuestOutcome.raise "boom") (fun _ => 0) 3 "C:\\app.exe").2 =
      Except.ok (-1) :=
  ⟨⟨"boom", rfl⟩,
    run_in_guest_returns_neg_one (fun _ => GuestOutcome.raise "boom") (fun _ => 0) 3
      "C:\\app.exe" ⟨"boom", rfl⟩⟩

/-! ## C3 — per-attempt exit-code classification in `run_in_guest` -/

/-- **C3.** For every guest command attempt in `run_in_guest`: a zero
exit code is reported as success (`0` returned on the first attempt); a
non-zero exit code whose decoded stdout contains an explicit error
marker (the literal `"Error:"` or a localized failure keyword
`错误`/`失败`) is treated as a hard failure and raised
(`VMOperationError` from the attempt); a non-zero exit code without
such markers is returned to the caller as a value, not raised. -/
theorem guest_exit_classification :
    (∀ (genv : GuestEnv) (jit : Nat → ℚ) (n : Nat) (program out err : String),
      genv program = GuestOutcome.done 0 out err →
      run_in_guest genv jit (n + 1) program =
        ([Ev.att ("run " ++ program) 1, Ev.guestExec program], Except.ok 0)) ∧
    (∀ (rc : Int) (out err : String), rc ≠ 0 →
      (strContains out "Error:" || strContains out "错误" || strContains out "失败") = true →
      classifyGuestResult rc out err =
        Except.error ("Guest program failed with error: stdout=" ++ showCapture out ++
          ", stderr=" ++ showCapture err)) ∧
    (∀ (genv : GuestEnv) (jit : Nat → ℚ) (n : Nat) (program : String)
      (rc : Int) (out err : String),
      genv program = GuestOutcome.done rc out err → rc ≠ 0 →
      (strContains out "Error:" || strContains out "错误" || strContains out "失败") = false →
      run_in_guest genv jit (n + 1) program =
        ([Ev.att ("run " ++ program) 1, Ev.guestExec program], Except.ok rc)) := by
  refine ⟨?_, ?_, ?_⟩
  · intro genv jit n program out err hg
    have hop : (fun _ : Nat => ([Ev.guestExec program], runGuestOperation (genv program))) 1 =
        ([Ev.guestExec program], Except.ok 0) := by
      simp [hg, runGuestOperation, classifyGuestResult]
    unfold run_in_guest retry_with_backoff
    rw [retryFrom_ok hop]
  · intro rc out err hrc hmark
    simp [classifyGuestResult, hrc, hmark]
  · intro genv jit n program rc out err hg hrc hmark
    have hop : (fun _ : Nat => ([Ev.guestExec program], runGuestOperation (genv program))) 1 =
        ([Ev.guestExec program], Except.ok rc) := by
      simp [hg, runGuestOperation, classifyGuestResult, hrc, hmark]
    unfold run_in_guest retry_with_backoff
    rw [retryFrom_ok hop]

/-- Witness for C3: a zero-exit launch succeeds with `0`; exit 1 with
`"Error:"` in stdout raises; exit 5 with benign output is returned as
the value `5`. -/
theorem guest_exit_classification_witness :
    run_in_guest (fun _ => GuestOutcome.done 0 "" "") (fun _ => 0) 3 "C:\\n.exe" =
      ([Ev.att ("run " ++ "C:\\n.exe") 1, Ev.guestExec "C:\\n.exe"], Except.ok 0) ∧
    classifyGuestResult 1 "Error: boom" "" =
      Except.error ("Guest program failed with error: stdout=" ++
        showCapture "Error: boom" ++ ", stderr=" ++ showCapture "") ∧
    run_in_guest (fun _ => GuestOutcome.done 5 "launched" "") (fun _ => 0) 3 "C:\\n.exe" =
      ([Ev.att ("run " ++ "C:\\n.exe") 1, Ev.guestExec "C:\\n.exe"], Except.ok 5) :=
  ⟨guest_exit_classification.1 (fun _ => GuestOutcome.done 0 "" "") (fun _ => 0) 2
      "C:\\n.exe" "" "" rfl,
    guest_exit_classification.2.1 1 "Error: boom" "" (by decide) (by decide),
    guest_exit_classification.2.2 (fun _ => GuestOutcome.done 5 "launched" "") (fun _ => 0) 2
      "C:\\n.exe" 5 "launched" "" rfl (by decide) (by decide)⟩

/-! ## Constant-failure retry traces (for operations whose every attempt
produces the same trace and error) -/

/-- The trace `_retry_with_backoff` produces when every attempt runs the
same per-attempt trace `tr` and fails. -/
def constFailTrace (p : RetryPolicy) (jit : Nat → ℚ) (tr : List Ev) :
    Nat → Nat → List Ev
  | _, 0 => []
  | a, 1 => Ev.att p.operationName a :: tr
  | a, f + 2 =>
    Ev.att p.operationName a :: tr ++
      Ev.backoff (backoffDelay p a) (jit a) :: constFailTrace p jit tr (a + 1) (f + 1)

theorem retryFrom_constFail {α} {op : Nat → List Ev × Except String α}
    {tr : List Ev} {e : String} (h : ∀ k, op k = (tr, Except.error e))
    (jit : Nat → ℚ) (p : RetryPolicy) :
    ∀ f a last, retryFrom op jit p a (f + 1) last =
      (constFailTrace p jit tr a (f + 1), Except.error (retryFailMsg p (some e))) := by
  intro f
  induction f with
  | zero =>
    intro a last
    rw [retryFrom_err_last (h a)]
    rfl
  | succ f ih =>
    intro a last
    rw [retryFrom_err_step (h a), ih (a + 1) (some e)]
    rfl

theorem constFailTrace_mem (p : RetryPolicy) (jit : Nat → ℚ) (tr : List Ev) :
    ∀ f a x, x ∈ constFailTrace p jit tr a f →
      isAttEv x = true ∨ isBackoffEv x = true ∨ x ∈ tr := by
  intro f
  induction f with
  | zero => intro a x hx; simp [constFailTrace] at hx
  | succ f ih =>
    intro a x hx
    cases f with
    | zero =>
      rcases List.mem_cons.mp hx with h1 | h2
      · left; rw [h1]; rfl
      · right; right; exact h2
    | succ f2 =>
      rcases List.mem_append.mp hx with h1 | h2
      · rcases List.mem_cons.mp h1 with ha | hb
        · left; rw [ha]; rfl
        · right; right; exact hb
      · rcases List.mem_cons.mp h2 with hc | hd
        · right; left; rw [hc]; rfl
        · exact ih (a + 1) x hd

/-- `countP p l = 0` from pointwise falseness. -/
theorem countP_zero_of_all {l : List Ev} {q : Ev → Bool}
    (h : ∀ x ∈ l, q x = false) : l.countP q = 0 := by
  induction l with
  | nil => rfl
  | cons a l ih =>
    rw [List.countP_cons, h a (List.mem_cons_self a l)]
    simp only [Bool.false_eq_true, if_false, Nat.add_zero]
    exact ih (fun x hx => h x (List.mem_cons_of_mem a hx))

/-! ## `run_vmrun` equations -/

/-- A `_run_vmrun` whose command succeeds: one attempt, result passed through. -/
theorem run_vmrun_ok (s : String) (jit : Nat → ℚ) (opName : String) (ev : Ev) :
    run_vmrun (Except.ok s) jit opName ev = ([Ev.att opName 1, ev], Except.ok s) := by
  unfold run_vmrun retry_with_backoff
  exact @retryFrom_ok String (fun _ => ([ev], Except.ok s)) 1 [ev] s rfl jit _ 2 none

/-- A `_run_vmrun` whose command permanently fails: three attempts with
backoff, then the aggregate error. -/
theorem run_vmrun_err (e : String) (jit : Nat → ℚ) (opName : String) (ev : Ev) :
    run_vmrun (Except.error e) jit opName ev =
      (constFailTrace
          { maxAttempts := 3, baseDelay := 1, maxDelay := 30, operationName := opName }
          jit [ev] 1 3,
        Except.error (retryFailMsg
          { maxAttempts := 3, baseDelay := 1, maxDelay := 30, operationName := opName }
          (some e))) := by
  unfold run_vmrun retry_with_backoff
  exact retryFrom_constFail (fun _ => rfl) jit _ 2 1 none

/-! ## C4 — `revert_snapshot` against an unavailable snapshot listing -/

/-- `can_revert_snapshot` when the listing succeeds. -/
theorem can_revert_eq_ok (env : VMEnv) (jit : Nat → ℚ) (name s : String)
    (hsn : env.snapList = Except.ok s) :
    can_revert_snapshot env jit name =
      ([Ev.att (vmrunOpName ["-T", "ws", "listSnapshots", env.vmxPath]) 1,
        Ev.cmdListSnapshots], strContains s name) := by
  unfold can_revert_snapshot
  rw [hsn, run_vmrun_ok]

/-- `can_revert_snapshot` when the listing query fails: the exception is
caught and the pre-check returns `false`. -/
theorem can_revert_eq_err (env : VMEnv) (jit : Nat → ℚ) (name e : String)
    (hsn : env.snapList = Except.error e) :
    can_revert_snapshot env jit name =
      (constFailTrace
          { maxAttempts := 3, baseDelay := 1, maxDelay := 30,
            operationName := vmrunOpName ["-T", "ws", "listSnapshots", env.vmxPath] }
          jit [Ev.cmdListSnapshots] 1 3, false) := by
  unfold can_revert_snapshot
  rw [hsn, run_vmrun_err]

/-- Every event of the `can_revert_snapshot` trace is a status line, a
backoff sleep, or a `listSnapshots` command — never a revert. -/
theorem can_revert_trace_mem (env : VMEnv) (jit : Nat → ℚ) (name : String) :
    ∀ x ∈ (can_revert_snapshot env jit name).1,
      isAttEv x = true ∨ isBackoffEv x = true ∨ x = Ev.cmdListSnapshots := by
  intro x hx
  cases hsn : env.snapList with
  | ok s =>
    rw [can_revert_eq_ok env jit name s hsn] at hx
    rcases List.mem_cons.mp hx with h1 | h2
    · left; rw [h1]; rfl
    · right; right; simpa using h2
  | error e =>
    rw [can_revert_eq_err env jit name e hsn] at hx
    rcases constFailTrace_mem _ jit _ 3 1 x hx with h1 | h2 | h3
    · exact Or.inl h1
    · exact Or.inr (Or.inl h2)
    · right; right; simpa using h3

/-- **C4 (counterexample).** A target whose snapshot-listing query fails
reporting "encrypted ... password": `revert_snapshot` never issues the
revert command, but — contrary to the claim — it *raises*
`VMOperationError` after exhausting its 2 attempts instead of
returning without error. -/
theorem revert_snapshot_encrypted_cex :
    strContains
      "vmrun failed: Error: The virtual machine is encrypted and requires a password"
      "encrypted" = true ∧
    (revert_snapshot
      { vmxPath := "E:\\VMs\\Win11\\Win11.vmx",
        snapList := Except.error
          "vmrun failed: Error: The virtual machine is encrypted and requires a password",
        revertRes := Except.ok "", listRes := Except.ok "", listProcRes := Except.ok "" }
      (fun _ => 0) "clean").1.countP isRevertEv = 0 ∧
    (revert_snapshot
      { vmxPath := "E:\\VMs\\Win11\\Win11.vmx",
        snapList := Except.error
          "vmrun failed: Error: The virtual machine is encrypted and requires a password",
        revertRes := Except.ok "", listRes := Except.ok "", listProcRes := Except.ok "" }
      (fun _ => 0) "clean").2 =
      Except.error "snapshot revert failed after 2 attempts: Snapshot 'clean' not found in VM" :=
  ⟨by decide, by decide, rfl⟩

/-- **C4 (amended).** For every call `revert_snapshot(name)` against a
target whose snapshot-listing query fails (as for an encrypted or
password-protected VM) or whose listing output does not contain the
snapshot name: the pre-check `can_revert_snapshot` treats this as
"cannot revert" and returns `false` without raising, and the revert
command is never issued; but `revert_snapshot` itself then raises
`VMOperationError` ("snapshot revert failed after 2 attempts: Snapshot
'name' not found in VM") after its 2 attempts — it does not return
without error. -/
theorem revert_snapshot_unavailable_raises (env : VMEnv) (jit : Nat → ℚ)
    (name : String)
    (h : ∀ s, env.snapList = Except.ok s → strContains s name = false) :
    (can_revert_snapshot env jit name).2 = false ∧
    (revert_snapshot env jit name).2 =
      Except.error ("snapshot revert" ++ " failed after " ++ toString (2 : Nat) ++
        " attempts: " ++ ("Snapshot '" ++ name ++ "' not found in VM")) ∧
    (revert_snapshot env jit name).1.countP isRevertEv = 0 := by
  have hval : (can_revert_snapshot env jit name).2 = false := by
    cases hsn : env.snapList with
    | ok s => rw [can_revert_eq_ok env jit name s hsn]; simpa using h s hsn
    | error e => rw [can_revert_eq_err env jit name e hsn]
  have hmem := can_revert_trace_mem env jit name
  rcases hcan : can_revert_snapshot env jit name with ⟨trC, b⟩
  rw [hcan] at hval hmem
  simp only at hval
  subst hval
  have hrs : revert_snapshot env jit name =
      (constFailTrace
          { maxAttempts := 2, baseDelay := 1, maxDelay := 30,
            operationName := "snapshot revert" } jit trC 1 2,
        Except.error (retryFailMsg
          { maxAttempts := 2, baseDelay := 1, maxDelay := 30,
            operationName := "snapshot revert" }
          (some ("Snapshot '" ++ name ++ "' not found in VM")))) := by
    unfold revert_snapshot retry_with_backoff
    simp only [hcan, Bool.not_false, if_true]
    exact retryFrom_constFail (fun _ => rfl) jit _ 1 1 none
  refine ⟨rfl, ?_, ?_⟩
  · rw [hrs]
    rfl
  · rw [hrs]
    apply countP_zero_of_all
    intro x hx
    rcases constFailTrace_mem _ jit trC 2 1 x hx with h1 | h2 | h3
    · cases x <;> simp_all [isAttEv, isRevertEv]
    · cases x <;> simp_all [isBackoffEv, isRevertEv]
    · rcases hmem x h3 with ha | hb | hc
      · cases x <;> simp_all [isAttEv, isRevertEv]
      · cases x <;> simp_all [isBackoffEv, isRevertEv]
      · rw [hc]; rfl

/-- Witness for C4 at a concrete failing listing. -/
theorem revert_snapshot_unavailable_raises_witness :
    (∀ s, (Except.error "vmrun failed: timeout" : Except String String) =
        Except.ok s → strContains s "clean" = false) ∧
    (revert_snapshot
      { vmxPath := "E:\\VMs\\A.vmx", snapList := Except.error "vmrun failed: timeout",
        revertRes := Except.ok "", listRes := Except.ok "", listProcRes := Except.ok "" }
      (fun _ => 0) "clean").2 =
      Except.error ("snapshot revert" ++ " failed after " ++ toString (2 : Nat) ++
        " attempts: " ++ ("Snapshot '" ++ "clean" ++ "' not found in VM")) :=
  ⟨fun _ hs => by simp at hs,
    (revert_snapshot_unavailable_raises
      { vmxPath := "E:\\VMs\\A.vmx", snapList := Except.error "vmrun failed: timeout",
        revertRes := Except.ok "", listRes := Except.ok "", listProcRes := Except.ok "" }
      (fun _ => 0) "clean" (fun _ hs => by simp at hs)).2.1⟩

/-! ## C5 — event sequence of a successful `revert_snapshot` -/

/-- `is_running` when the listing query succeeds. -/
theorem is_running_eq_ok (env : VMEnv) (jit : Nat → ℚ) (ls : String)
    (hls : env.listRes = Except.ok ls) :
    is_running env jit =
      ([Ev.att (vmrunOpName ["list"]) 1, Ev.cmdList], vmListMatch env.vmxPath ls) := by
  unfold is_running
  rw [hls, run_vmrun_ok]

/-- `start` when the launch leads to the VM appearing in the listing:
one attempt, launch, 20-second settle sleep, one listing query. -/
theorem startVM_ok (env : VMEnv) (jit : Nat → ℚ) (ls : String)
    (hls : env.listRes = Except.ok ls) (hm : vmListMatch env.vmxPath ls = true) :
    startVM env jit =
      ([Ev.att "VM start" 1, Ev.cmdStart, Ev.sleepSecs 20,
        Ev.att (vmrunOpName ["list"]) 1, Ev.cmdList], Except.ok true) := by
  unfold startVM retry_with_backoff
  have hop : (fun _ : Nat =>
      let r := is_running env jit
      (Ev.cmdStart :: Ev.sleepSecs 20 :: r.1,
        if r.2 then (Except.ok true : Except String Bool)
        else Except.error "VM failed to start")) 1 =
      ([Ev.cmdStart, Ev.sleepSecs 20, Ev.att (vmrunOpName ["list"]) 1, Ev.cmdList],
        Except.ok true) := by
    simp only [is_running_eq_ok env jit ls hls, hm, if_true]
  exact retryFrom_ok hop jit _ 2 none

/-- The full event sequence of a successful snapshot revert: pre-check
listing, revert command, VM start (launch, settle sleep, listing poll) —
and nothing else. -/
theorem revert_snapshot_success (env : VMEnv) (jit : Nat → ℚ) (name s rv ls : String)
    (hsn : env.snapList = Except.ok s) (hname : strContains s name = true)
    (hrev : env.revertRes = Except.ok rv)
    (hls : env.listRes = Except.ok ls) (hm : vmListMatch env.vmxPath ls = true) :
    revert_snapshot env jit name =
      ([Ev.att "snapshot revert" 1,
        Ev.att (vmrunOpName ["-T", "ws", "listSnapshots", env.vmxPath]) 1,
        Ev.cmdListSnapshots,
        Ev.att (vmrunOpName ["-T", "ws", "revertToSnapshot", env.vmxPath, name]) 1,
        Ev.cmdRevert name,
        Ev.att "VM start" 1, Ev.cmdStart, Ev.sleepSecs 20,
        Ev.att (vmrunOpName ["list"]) 1, Ev.cmdList], Except.ok true) := by
  unfold revert_snapshot retry_with_backoff
  have hop : (fun _ : Nat =>
      let c := can_revert_snapshot env jit name
      if !c.2 then (c.1, Except.error ("Snapshot '" ++ name ++ "' not found in VM"))
      else
        match run_vmrun env.revertRes jit
            (vmrunOpName ["-T", "ws", "revertToSnapshot", env.vmxPath, name])
            (Ev.cmdRevert name) with
        | (trR, Except.error e) => (c.1 ++ trR, Except.error e)
        | (trR, Except.ok _) =>
          match startVM env jit with
          | (trS, Except.error e) => (c.1 ++ trR ++ trS, Except.error e)
          | (trS, Except.ok _) => (c.1 ++ trR ++ trS, Except.ok true)) 1 =
      ([Ev.att (vmrunOpName ["-T", "ws", "listSnapshots", env.vmxPath]) 1,
        Ev.cmdListSnapshots,
        Ev.att (vmrunOpName ["-T", "ws", "revertToSnapshot", env.vmxPath, name]) 1,
        Ev.cmdRevert name,
        Ev.att "VM start" 1, Ev.cmdStart, Ev.sleepSecs 20,
        Ev.att (vmrunOpName ["list"]) 1, Ev.cmdList], Except.ok true) := by
    simp only [can_revert_eq_ok env jit name s hsn, hname, hrev, run_vmrun_ok,
      startVM_ok env jit ls hls hm, Bool.not_true, Bool.false_eq_true, if_false,
      List.cons_append, List.nil_append]
  exact retryFrom_ok hop jit _ 1 none

/-- The environment of a running VM with a `clean` snapshot where every
control-surface command succeeds. -/
def runningEnv : VMEnv :=
  { vmxPath := "E:\\VMs\\Win11\\Win11.vmx",
    snapList := Except.ok "Total snapshots: 1\nclean",
    revertRes := Except.ok "",
    listRes := Except.ok "Total running VMs: 1\nE:\\VMs\\Win11\\Win11.vmx",
    listProcRes := Except.ok "" }

/-- **C5 (counterexample).** A successful `revert_snapshot("clean")` on a
VM that is currently running (`is_running` is true): the complete event
sequence is pre-check listing → revert command → start; it contains no
`stop` command (soft or hard) and no pre-revert settle delay,
contradicting the claim that the controller stops the VM first. -/
theorem revert_snapshot_no_stop_cex :
    (is_running runningEnv (fun _ => 0)).2 = true ∧
    revert_snapshot runningEnv (fun _ => 0) "clean" =
      ([Ev.att "snapshot revert" 1,
        Ev.att "vmrun -T ws" 1, Ev.cmdListSnapshots,
        Ev.att "vmrun -T ws" 1, Ev.cmdRevert "clean",
        Ev.att "VM start" 1, Ev.cmdStart, Ev.sleepSecs 20,
        Ev.att "vmrun list" 1, Ev.cmdList], Except.ok true) ∧
    (revert_snapshot runningEnv (fun _ => 0) "clean").1.countP isStopEv = 0 :=
  ⟨by decide, rfl, by decide⟩

/-- **C5 (amended).** For every successful `revert_snapshot(name)` — also
on a VM that is currently running — the controller performs, in order:
the snapshot-listing pre-check, the revert command, and an immediate VM
re-start (launch, settle sleep, listing poll).  It performs *no* stop
step (soft or hard) and no pre-revert settle delay; the running state is
never consulted before the revert. -/
theorem revert_snapshot_success_sequence (env : VMEnv) (jit : Nat → ℚ)
    (name s rv ls : String)
    (hsn : env.snapList = Except.ok s) (hname : strContains s name = true)
    (hrev : env.revertRes = Except.ok rv)
    (hls : env.listRes = Except.ok ls) (hm : vmListMatch env.vmxPath ls = true) :
    (is_running env jit).2 = true ∧
    revert_snapshot env jit name =
      ([Ev.att "snapshot revert" 1,
        Ev.att (vmrunOpName ["-T", "ws", "listSnapshots", env.vmxPath]) 1,
        Ev.cmdListSnapshots,
        Ev.att (vmrunOpName ["-T", "ws", "revertToSnapshot", env.vmxPath, name]) 1,
        Ev.cmdRevert name,
        Ev.att "VM start" 1, Ev.cmdStart, Ev.sleepSecs 20,
        Ev.att (vmrunOpName ["list"]) 1, Ev.cmdList], Except.ok true) ∧
    (revert_snapshot env jit name).1.countP isStopEv = 0 := by
  have hrun : (is_running env jit).2 = true := by
    rw [is_running_eq_ok env jit ls hls]
    exact hm
  have hrs := revert_snapshot_success env jit name s rv ls hsn hname hrev hls hm
  refine ⟨hrun, hrs, ?_⟩
  rw [hrs]
  rfl

/-- Witness for C5 at the concrete running-VM environment. -/
theorem revert_snapshot_success_sequence_witness :
    strContains "Total snapshots: 1\nclean" "clean" = true ∧
    (is_running runningEnv (fun _ => 0)).2 = true ∧
    (revert_snapshot runningEnv (fun _ => 0) "clean").1.countP isStopEv = 0 :=
  ⟨by decide,
    (revert_snapshot_success_sequence runningEnv (fun _ => 0) "clean"
      "Total snapshots: 1\nclean" "" "Total running VMs: 1\nE:\\VMs\\Win11\\Win11.vmx"
      rfl (by decide) rfl rfl (by decide)).1,
    (revert_snapshot_success_sequence runningEnv (fun _ => 0) "clean"
      "Total snapshots: 1\nclean" "" "Total running VMs: 1\nE:\\VMs\\Win11\\Win11.vmx"
      rfl (by decide) rfl rfl (by decide)).2.2⟩

/-! ## C6 — `is_running` path matching -/

/-- `is_running` when the listing query fails: the exception is caught
and the answer is `false`. -/
theorem is_running_eq_err (env : VMEnv) (jit : Nat → ℚ) (e : String)
    (he : env.listRes = Except.error e) :
    is_running env jit =
      (constFailTrace
          { maxAttempts := 3, baseDelay := 1, maxDelay := 30,
            operationName := vmrunOpName ["list"] }
          jit [Ev.cmdList] 1 3, false) := by
  unfold is_running
  rw [he, run_vmrun_err]

/-- **C6.** For every listing string returned by the control surface,
`is_running` returns true exactly when the (stripped) listing contains
the handle's VM path in any of these forms: exact normalized path,
separator-normalized (backslash replaced by forward slash),
case-insensitive (lowercased path against the lowercased listing), or
basename-only; when the listing contains none of these forms — or when
the listing query fails — it returns false. -/
theorem is_running_matching (env : VMEnv) (jit : Nat → ℚ) :
    (∀ out, env.listRes = Except.ok out →
      ((is_running env jit).2 = true ↔
        (strContains (pyStrip out) env.vmxPath = true ∨
          strContains (pyStrip out) (backslashToSlash env.vmxPath) = true ∨
          strContains (lowerStr (pyStrip out)) (lowerStr env.vmxPath) = true ∨
          strContains (pyStrip out) (winBasename env.vmxPath) = true))) ∧
    (∀ e, env.listRes = Except.error e → (is_running env jit).2 = false) := by
  constructor
  · intro out hout
    rw [is_running_eq_ok env jit out hout]
    simp only [vmListMatch, Bool.or_eq_true]
    tauto
  · intro e he
    rw [is_running_eq_err env jit e he]

/-- Witness for C6 at the spec's own example: handle path
`E:\VMs\Win11\Win11.vmx`, listing containing
`e:\vms\win11\win11.vmx` (case-different) → running. -/
theorem is_running_matching_witness :
    ({ vmxPath := "E:\\VMs\\Win11\\Win11.vmx", snapList := Except.ok "",
        revertRes := Except.ok "", listRes := Except.ok "e:\\vms\\win11\\win11.vmx",
        listProcRes := Except.ok "" } : VMEnv).listRes =
      Except.ok "e:\\vms\\win11\\win11.vmx" ∧
    (is_running
      { vmxPath := "E:\\VMs\\Win11\\Win11.vmx", snapList := Except.ok "",
        revertRes := Except.ok "", listRes := Except.ok "e:\\vms\\win11\\win11.vmx",
        listProcRes := Except.ok "" } (fun _ => 0)).2 = true :=
  ⟨rfl,
    ((is_running_matching
      { vmxPath := "E:\\VMs\\Win11\\Win11.vmx", snapList := Except.ok "",
        revertRes := Except.ok "", listRes := Except.ok "e:\\vms\\win11\\win11.vmx",
        listProcRes := Except.ok "" } (fun _ => 0)).1
      "e:\\vms\\win11\\win11.vmx" rfl).mpr (by decide)⟩

/-! ## C7 — login gate probing -/

/-- A successful probe: one `listProcessesInGuest` attempt. -/
theorem test_guest_access_ok (env : VMEnv) (jit : Nat → ℚ) (s : String)
    (h : env.listProcRes = Except.ok s) :
    test_guest_access env jit =
      ([Ev.att (vmrunOpName ["-T", "ws", "-gu"]) 1, Ev.cmdListProcesses], true) := by
  unfold test_guest_access
  rw [h, run_vmrun_ok]

/-- A failing probe: `_run_vmrun` retries the probe command 3 times with
backoff before `test_guest_access` converts the exhaustion error to `false`. -/
theorem test_guest_access_err (env : VMEnv) (jit : Nat → ℚ) (e : String)
    (h : env.listProcRes = Except.error e) :
    test_guest_access env jit =
      (constFailTrace
          { maxAttempts := 3, baseDelay := 1, maxDelay := 30,
            operationName := vmrunOpName ["-T", "ws", "-gu"] }
          jit [Ev.cmdListProcesses] 1 3, false) := by
  unfold test_guest_access
  rw [h, run_vmrun_err]

/-- Counting events of a constant-failure retry trace when the counted
predicate ignores status lines and backoff sleeps. -/
theorem constFailTrace_countP (p : RetryPolicy) (jit : Nat → ℚ) (tr : List Ev)
    (q : Ev → Bool) (hA : ∀ s k, q (Ev.att s k) = false)
    (hB : ∀ d j, q (Ev.backoff d j) = false) :
    ∀ f a, (constFailTrace p jit tr a f).countP q = f * tr.countP q := by
  intro f
  induction f with
  | zero => intro a; simp [constFailTrace]
  | succ f ih =>
    intro a
    cases f with
    | zero =>
      simp [constFailTrace, List.countP_cons, hA]
    | succ f2 =>
      show (Ev.att p.operationName a :: tr ++
        Ev.backoff (backoffDelay p a) (jit a) ::
          constFailTrace p jit tr (a + 1) (f2 + 1)).countP q =
        (f2 + 1 + 1) * tr.countP q
      simp only [List.countP_append, List.countP_cons, hA, hB, ih (a + 1),
        Bool.false_eq_true, if_false, Nat.add_zero]
      ring

/-- One step of the `_wait_for_user_login` loop (definitional unfolding). -/
theorem wait_for_user_login_succ (env : VMEnv) (jit : Nat → ℚ) (t : Nat) :
    wait_for_user_login env jit (t + 1) =
      (if (test_guest_access env jit).2 then ((test_guest_access env jit).1, true)
       else ((test_guest_access env jit).1 ++ (wait_for_user_login env jit t).1,
         (wait_for_user_login env jit t).2)) := rfl

/-- `_wait_for_user_login` with a permanently failing probe: returns
`false` after the whole budget, with each of the `t` probes issuing 3
underlying attempts. -/
theorem wait_for_user_login_err (env : VMEnv) (jit : Nat → ℚ) (e : String)
    (h : env.listProcRes = Except.error e) :
    ∀ t, (wait_for_user_login env jit t).2 = false ∧
      (wait_for_user_login env jit t).1.countP isListProcEv = 3 * t := by
  intro t
  induction t with
  | zero => simp [wait_for_user_login]
  | succ t ih =>
    have hcount : ([Ev.cmdListProcesses].countP isListProcEv) = 1 := by decide
    rw [wait_for_user_login_succ, test_guest_access_err env jit e h]
    simp only [Bool.false_eq_true, if_false, List.countP_append]
    refine ⟨ih.1, ?_⟩
    rw [constFailTrace_countP _ jit _ isListProcEv (fun _ _ => rfl) (fun _ _ => rfl) 3 1,
      hcount, ih.2]
    ring

/-- `_wait_for_user_login` with an accessible guest: the first probe
succeeds and the loop returns `true` immediately. -/
theorem wait_for_user_login_ok (env : VMEnv) (jit : Nat → ℚ) (s : String)
    (h : env.listProcRes = Except.ok s) (t : Nat) :
    (wait_for_user_login env jit (t + 1)).2 = true ∧
      (wait_for_user_login env jit (t + 1)).1.countP isListProcEv = 1 := by
  rw [wait_for_user_login_succ, test_guest_access_ok env jit s h]
  exact ⟨rfl, rfl⟩

/-- **C7 (counterexample).** With an inaccessible guest and a 2-second
budget, the login gate performs `6` `listProcessesInGuest` attempts —
more than one per probe — because each probe goes through `_run_vmrun`,
which itself applies the full Retry/Backoff Engine with 3 attempts; this
contradicts the claim that a single probe is not retried internally. -/
theorem login_probe_retries_cex :
    (wait_for_user_login
      { runningEnv with
        listProcRes := Except.error "vmrun failed: The VMware Tools are not running" }
      (fun _ => 0) 2).2 = false ∧
    (wait_for_user_login
      { runningEnv with
        listProcRes := Except.error "vmrun failed: The VMware Tools are not running" }
      (fun _ => 0) 2).1.countP isListProcEv = 6 ∧
    ¬((wait_for_user_login
      { runningEnv with
        listProcRes := Except.error "vmrun failed: The VMware Tools are not running" }
      (fun _ => 0) 2).1.countP isListProcEv ≤ 2) :=
  ⟨by decide, by decide, by decide⟩

/-- **C7 (amended).** For every timeout budget `T ≥ 1`, the login gate
probes guest accessibility once per loop iteration for up to `T`
iterations, returns true on the first successful probe (a single
underlying attempt) and false after exhausting the budget, never raising
on timeout; however each individual probe goes through `_run_vmrun`,
which applies the full Retry/Backoff Engine — a permanently failing
probe issues 3 underlying attempts per iteration (`3 * T` in total). -/
theorem wait_for_user_login_spec (env : VMEnv) (jit : Nat → ℚ) (t : Nat)
    (ht : 1 ≤ t) :
    (∀ s, env.listProcRes = Except.ok s →
      ((wait_for_user_login env jit t).2 = true ∧
        (wait_for_user_login env jit t).1.countP isListProcEv = 1)) ∧
    (∀ e, env.listProcRes = Except.error e →
      ((wait_for_user_login env jit t).2 = false ∧
        (wait_for_user_login env jit t).1.countP isListProcEv = 3 * t)) := by
  obtain ⟨t2, rfl⟩ : ∃ t2, t = t2 + 1 := ⟨t - 1, by omega⟩
  exact ⟨fun s hs => wait_for_user_login_ok env jit s hs t2,
    fun e he => wait_for_user_login_err env jit e he (t2 + 1)⟩

/-- Witness for C7 at a concrete inaccessible guest and budget 2. -/
theorem wait_for_user_login_spec_witness :
    (1 : Nat) ≤ 2 ∧
    ((wait_for_user_login
      { runningEnv with listProcRes := Except.error "vmrun failed: no tools" }
      (fun _ => 0) 2).2 = false ∧
      (wait_for_user_login
        { runningEnv with listProcRes := Except.error "vmrun failed: no tools" }
        (fun _ => 0) 2).1.countP isListProcEv = 3 * 2) :=
  ⟨by norm_num,
    (wait_for_user_login_spec
      { runningEnv with listProcRes := Except.error "vmrun failed: no tools" }
      (fun _ => 0) 2 (by norm_num)).2 "vmrun failed: no tools" rfl⟩

/-! ## C8 / C10 — the action pipeline runner -/

/-- A stub guest handle: every guest command completes with exit code 0. -/
def stubGuestEnv : GuestEnv := fun _ => GuestOutcome.done 0 "" ""

/-- A trivial stand-in for the generic fallback handler (never reached
by the runs the claims exercise). -/
def genericStub : Handler := fun _ _ _ => ([], Except.ok true)

/-- The zero jitter oracle. -/
def zeroJit : Nat → ℚ := fun _ => 0

/-- `{"type": "sleep", "parameters": {"seconds": 2}}`. -/
def sleepTwoAct : Action :=
  { type := "sleep", parameters := [("seconds", PValue.num 2)] }

/-- `{"type": "launch", "parameters": {"program": "notepad"}}`. -/
def launchNotepadAct : Action :=
  { type := "launch", parameters := [("program", PValue.str "notepad")] }

/-- **C8 (counterexample).** Running `[sleep(2), launch("notepad")]`
against a stub VM handle invokes the guest executor exactly *once* (only
`launch` issues a guest command; `sleep` sleeps host-side), not twice as
the claim states. -/
theorem pipeline_sleep_launch_cex :
    (run_config stdRegistry genericStub stubGuestEnv zeroJit
      [sleepTwoAct, launchNotepadAct]).1.countP isGuestExecEv = 1 ∧
    ¬((run_config stdRegistry genericStub stubGuestEnv zeroJit
      [sleepTwoAct, launchNotepadAct]).1.countP isGuestExecEv = 2) :=
  ⟨by decide, by decide⟩

/-- **C8 (amended).** For the action list `[sleep(2), launch("notepad")]`
run against a stub VM handle, the pipeline runner dispatches the two
registered handlers exactly twice, in list order; the guest executor is
invoked exactly once (by `launch`; `sleep` performs a host-side
`time.sleep` and never touches the guest); and no inter-action pacing
delay occurs — neither between the two actions (the post-`sleep` delay
is configured as `0.0` because "sleep has its own timing") nor after the
last action. -/
theorem pipeline_sleep_launch_trace :
    run_config stdRegistry genericStub stubGuestEnv zeroJit
      [sleepTwoAct, launchNotepadAct] =
      ([Ev.handlerCall "sleep" 0, Ev.sleepSecs 2,
        Ev.handlerCall "launch" 1,
        Ev.att "run C:\\Windows\\System32\\notepad.exe" 1,
        Ev.guestExec "C:\\Windows\\System32\\notepad.exe"], Except.ok ()) ∧
    (run_config stdRegistry genericStub stubGuestEnv zeroJit
      [sleepTwoAct, launchNotepadAct]).1.countP isHandlerCallEv = 2 ∧
    (run_config stdRegistry genericStub stubGuestEnv zeroJit
      [sleepTwoAct, launchNotepadAct]).1.countP isGuestExecEv = 1 ∧
    (run_config stdRegistry genericStub stubGuestEnv zeroJit
      [sleepTwoAct, launchNotepadAct]).1.countP isPaceEv = 0 :=
  ⟨rfl, by decide, by decide, by decide⟩

/-- **C10.** For every action in a task configuration, the pipeline
runner treats any handler invocation that returns normally as success
and proceeds to the next action, regardless of the handler's boolean
return value — the continuation and the final result in the first
conjunct do not depend on `b`, so a handler returning `False` (e.g.,
`launch` with a missing `program` parameter, third conjunct) does not
abort the run or mark the action failed; only a raised exception aborts
the pipeline (second conjunct). -/
theorem run_config_ignores_handler_bool :
    (∀ (reg : String → Option Handler) (gh : Handler) (genv : GuestEnv)
      (jit : Nat → ℚ) (i : Nat) (a : Action) (rest : List Action)
      (tr : List Ev) (b : Bool),
      ((reg a.type).getD gh) genv jit a = (tr, Except.ok b) →
      runConfigFrom reg gh genv jit i (a :: rest) =
        (Ev.handlerCall a.type i :: tr ++
          (if rest.isEmpty then []
            else if 0 < actionDelay a.type then [Ev.pace (actionDelay a.type)] else []) ++
          (runConfigFrom reg gh genv jit (i + 1) rest).1,
          (runConfigFrom reg gh genv jit (i + 1) rest).2)) ∧
    (∀ (reg : String → Option Handler) (gh : Handler) (genv : GuestEnv)
      (jit : Nat → ℚ) (i : Nat) (a : Action) (rest : List Action)
      (tr : List Ev) (e : String),
      ((reg a.type).getD gh) genv jit a = (tr, Except.error e) →
      runConfigFrom reg gh genv jit i (a :: rest) =
        (Ev.handlerCall a.type i :: tr, Except.error e)) ∧
    (∀ (genv : GuestEnv) (jit : Nat → ℚ),
      handle_launch genv jit { type := "launch", parameters := [] } =
        ([], Except.ok false)) := by
  refine ⟨?_, ?_, ?_⟩
  · intro reg gh genv jit i a rest tr b hh
    simp only [runConfigFrom, hh]
  · intro reg gh genv jit i a rest tr e hh
    simp only [runConfigFrom, hh]
  · intro genv jit
    rfl

/-- Witness for C10: `launch` with a missing `program` parameter returns
`False`; the run over `[launch(missing), sleep]` continues past it. -/
theorem run_config_ignores_handler_bool_witness :
    ((stdRegistry "launch").getD genericStub) stubGuestEnv zeroJit
      { type := "launch", parameters := [] } = ([], Except.ok false) ∧
    runConfigFrom stdRegistry genericStub stubGuestEnv zeroJit 0
      [{ type := "launch", parameters := [] }, sleepTwoAct] =
      (Ev.handlerCall "launch" 0 :: [] ++
        (if ([sleepTwoAct] : List Action).isEmpty then []
          else if 0 < actionDelay "launch" then [Ev.pace (actionDelay "launch")] else []) ++
        (runConfigFrom stdRegistry genericStub stubGuestEnv zeroJit 1 [sleepTwoAct]).1,
        (runConfigFrom stdRegistry genericStub stubGuestEnv zeroJit 1 [sleepTwoAct]).2) :=
  ⟨rfl,
    run_config_ignores_handler_bool.1 stdRegistry genericStub stubGuestEnv zeroJit 0
      { type := "launch", parameters := [] } [sleepTwoAct] [] false rfl⟩

/-! ## C9 — evaluator bridge with a missing result file -/

/-- A `copy_to_guest` / `copy_from_guest` whose command succeeds: one
outer attempt around one inner `_run_vmrun` attempt. -/
theorem copy_file_retry_ok (s : String) (jit : Nat → ℚ) (opName : String) (ev : Ev) :
    copy_file_retry (Except.ok s) jit opName ev =
      ([Ev.att opName 1, Ev.att (vmrunOpName ["-T", "ws"]) 1, ev], Except.ok true) := by
  unfold copy_file_retry retry_with_backoff
  have hop : (fun _ : Nat =>
      let r := run_vmrun (Except.ok s) jit (vmrunOpName ["-T", "ws"]) ev
      (r.1, r.2.map (fun _ => true))) 1 =
      ([Ev.att (vmrunOpName ["-T", "ws"]) 1, ev], Except.ok true) := by
    simp [run_vmrun_ok, Except.map]
  exact retryFrom_ok hop jit _ 2 none

/-- **C9.** For every evaluation run in which the result file is absent
on the host after the guest-to-host transfer step, the Evaluator Bridge
returns the well-formed structured failure
`{"passed": False, "details": {"error": "Result file not found after
copying from guest", "evaluator_type": "runner"}}` rather than raising
an exception to the caller (the guest evaluator's own outcome and exit
code are irrelevant). -/
theorem evaluator_missing_result_file (env : EvalEnv) (jit : Nat → ℚ)
    (a b : String)
    (h1 : env.copyTaskRes = Except.ok a) (h2 : env.copyResultRes = Except.ok b)
    (h3 : env.hostResultExists = false) :
    (evaluator_run env jit).2 = Except.ok
      { passed := false,
        detailsError := some "Result file not found after copying from guest",
        evaluatorType := some "runner" } := by
  unfold evaluator_run
  simp only [h1, h2, h3, copy_file_retry_ok, Bool.false_eq_true, if_false]
  rfl

/-- A concrete evaluation environment whose transfers succeed but whose
result file is absent on the host. -/
def missingResultEnv : EvalEnv :=
  { copyTaskRes := Except.ok "", evalOutcome := GuestOutcome.done 0 "" "",
    copyResultRes := Except.ok "", hostResultExists := false,
    hostResult := failureDict "unused" }

/-- Witness for C9 at the concrete environment. -/
theorem evaluator_missing_result_file_witness :
    missingResultEnv.hostResultExists = false ∧
    (evaluator_run missingResultEnv zeroJit).2 = Except.ok
      { passed := false,
        detailsError := some "Result file not found after copying from guest",
        evaluatorType := some "runner" } :=
  ⟨rfl, evaluator_missing_result_file missingResultEnv zeroJit "" "" rfl rfl rfl⟩

end OSWorldApp
